import Mathlib

/-!
Shallow embedding of the risk-record and intervention lifecycle subsystem of
the HSU Early Warning System (src/database/db_manager.py and
src/utils/intervention_manager.py), together with theorems settling the
frozen claims about it.

Conventions of the embedding:
* SQL tables are Lean lists of row structures; an UPDATE is a `List.map`
  over the rows, an INSERT is an append, a SELECT is a `List.filter` or
  `List.find?`.
* Each Python method that runs inside one `get_connection` block (one
  SQLite transaction, committed as a whole) is one Lean function on the
  state, so its effect is atomic by construction.
* `datetime.now()` is threaded in as an explicit `now : String` argument.
* Python floats used for risk scores are embedded as `ℚ`; the code only
  stores them and compares them with constant thresholds.
* Python `None`-able values are `Option`; Python truthiness on ints / strings
  / options is made explicit (`0`, `""` and `None` are falsy).
-/

/-- Rows of the `risk_scores` table, with the columns written by
`DatabaseManager.create_risk_score` (src/database/db_manager.py, lines
306-341). -/
structure RiskRow where
  student_id : Nat
  term_id : Nat
  score_calculation_date : String
  overall_risk_score : ℚ
  academic_risk_factor : Option ℚ
  engagement_risk_factor : Option ℚ
  financial_risk_factor : Option ℚ
  wellness_risk_factor : Option ℚ
  risk_category : Option String
  risk_pathway : Option String
  confidence_score : Option ℚ
  model_version : String
  is_current : Bool
deriving DecidableEq

/-- The `**kwargs` of `DatabaseManager.create_risk_score`: every field is
read with `kwargs.get(...)`, defaulting to `None`, except `model_version`
which defaults to the string `v1.0`. -/
structure RiskKwargs where
  academic_risk_factor : Option ℚ := none
  engagement_risk_factor : Option ℚ := none
  financial_risk_factor : Option ℚ := none
  wellness_risk_factor : Option ℚ := none
  risk_category : Option String := none
  risk_pathway : Option String := none
  confidence_score : Option ℚ := none
  model_version : Option String := none
deriving DecidableEq

/-- The UPDATE step of `create_risk_score`: `UPDATE risk_scores SET
is_current = 0 WHERE student_id = ? AND term_id = ?` applied to one row. -/
def flipFn (student_id term_id : Nat) (r : RiskRow) : RiskRow :=
  if r.student_id = student_id ∧ r.term_id = term_id then
    { r with is_current := false }
  else r

/-- The row inserted by `create_risk_score`: all kwargs are stored as given
(`model_version` defaulting to `v1.0`), `is_current = 1`, and
`score_calculation_date = CURRENT_TIMESTAMP`. -/
def newRiskRow (now : String) (student_id term_id : Nat) (overall_risk_score : ℚ)
    (kw : RiskKwargs) : RiskRow :=
  { student_id := student_id
    term_id := term_id
    score_calculation_date := now
    overall_risk_score := overall_risk_score
    academic_risk_factor := kw.academic_risk_factor
    engagement_risk_factor := kw.engagement_risk_factor
    financial_risk_factor := kw.financial_risk_factor
    wellness_risk_factor := kw.wellness_risk_factor
    risk_category := kw.risk_category
    risk_pathway := kw.risk_pathway
    confidence_score := kw.confidence_score
    model_version := kw.model_version.getD "v1.0"
    is_current := true }

/-- `DatabaseManager.create_risk_score` (src/database/db_manager.py, lines
306-341): inside one transaction, first flips `is_current` to 0 on every
row for the (student, term) pair, then inserts the new row with
`is_current = 1`.  No validation of any score is performed. -/
def create_risk_score (tbl : List RiskRow) (now : String) (student_id term_id : Nat)
    (overall_risk_score : ℚ) (kw : RiskKwargs) : List RiskRow :=
  tbl.map (flipFn student_id term_id) ++ [newRiskRow now student_id term_id overall_risk_score kw]

/-- One logical call to `create_risk_score`, for reasoning about sequences
of calls. -/
structure RiskCall where
  now : String
  student_id : Nat
  term_id : Nat
  overall_risk_score : ℚ
  kw : RiskKwargs
deriving DecidableEq

/-- Applies a sequence of `create_risk_score` calls to a `risk_scores`
table, oldest call first. -/
def applyRiskCalls (calls : List RiskCall) (tbl : List RiskRow) : List RiskRow :=
  calls.foldl (fun acc c => create_risk_score acc c.now c.student_id c.term_id c.overall_risk_score c.kw) tbl

/-- Whether a row is a current row for the given (student, term) pair. -/
def isCurrentFor (student_id term_id : Nat) (r : RiskRow) : Bool :=
  decide (r.student_id = student_id ∧ r.term_id = term_id ∧ r.is_current = true)

/-- Number of rows in the table that are current for the given
(student, term) pair. -/
def currentCount (tbl : List RiskRow) (student_id term_id : Nat) : Nat :=
  (tbl.filter (isCurrentFor student_id term_id)).length

/-- The risk categorization branch of src/pages/6_🎯_ML_Predictions.py
(lines 185-193): the page-computed probability is bucketed by the
thresholds 0.70 / 0.50 / 0.30.  This value is only displayed by the page;
it is not what `create_risk_score` stores. -/
def riskCategoryBranch (risk_probability : ℚ) : String :=
  if risk_probability ≥ 7/10 then "Critical"
  else if risk_probability ≥ 5/10 then "High"
  else if risk_probability ≥ 3/10 then "Medium"
  else "Low"

/-- Rows of the `students` table, restricted to the columns that the
intervention workflow reads (`get_student_by_id` is used only to find the
student's `user_id` for notifications). -/
structure StudentRow where
  student_id : Nat
  user_id : Option Nat
deriving DecidableEq

/-- Rows of the `interventions` table, with the columns touched by
`InterventionManager` (src/utils/intervention_manager.py). -/
structure InterventionRow where
  intervention_id : Nat
  student_id : Nat
  advisor_id : Nat
  intervention_type_id : Option Nat
  title : String
  description : Option String
  priority : String
  status : String
  scheduled_date : Option String
  location : Option String
  method : String
  follow_up_required : Bool
  follow_up_date : Option String
  notes : Option String
  completed_date : Option String
  outcome_assessment : Option String
  success_rating : Option Int
  student_response : Option String
  duration_minutes : Option Int
deriving DecidableEq

/-- Rows of the `notifications` table, as written by
`DatabaseManager.create_notification`. -/
structure NotificationRow where
  user_id : Nat
  notification_type : String
  title : String
  message : String
  priority : String
  action_url : Option String
  action_label : Option String
  related_entity_type : Option String
  related_entity_id : Option Nat
deriving DecidableEq

/-- Rows of the `audit_logs` table, as written by
`DatabaseManager.log_action`; `old_values` / `new_values` hold the
`json.dumps` of the passed dict (`None` when the dict is falsy), embedded
as an association list. -/
structure AuditRow where
  user_id : Option Nat
  action : String
  entity_type : Option String
  entity_id : Option Nat
  old_values : Option (List (String × String))
  new_values : Option (List (String × String))
deriving DecidableEq

/-- The database state seen by the intervention workflow: the tables it
reads or writes.  `advisors` keeps only the ids, which is all the
`JOIN advisors` in `get_intervention_by_id` can filter on. -/
structure DBState where
  students : List StudentRow
  advisors : List Nat
  interventions : List InterventionRow
  notifications : List NotificationRow
  audit_logs : List AuditRow
deriving DecidableEq

/-- Python `scheduled_date or "TBD"`: `None` and the empty string are
falsy. -/
def pyOr (o : Option String) (d : String) : String :=
  match o with
  | none => d
  | some s => if s = "" then d else s

/-- Python `f"{x}"` on a nullable string column: SQL NULL renders as the
string `None`. -/
def pyStrOfNotes (o : Option String) : String :=
  match o with
  | none => "None"
  | some s => s

/-- SQLite `lastrowid` for an INSERT into `interventions`: one more than
the largest existing rowid. -/
def nextInterventionId (st : DBState) : Nat :=
  (st.interventions.foldl (fun m r => max m r.intervention_id) 0) + 1

/-- `InterventionManager.create_intervention` (lines 28-82), with the
`DatabaseManager.create_intervention` INSERT inlined: inserts the row with
status `Scheduled`, notifies the student when one exists with a truthy
`user_id`, and appends one `INTERVENTION_CREATED` audit entry.  Returns
the updated state and the new intervention id. -/
def create_intervention (st : DBState) (student_id advisor_id : Nat) (title : String)
    (description : Option String) (intervention_type_id : Option Nat)
    (priority : String) (scheduled_date : Option String) (location : Option String)
    (method : String) (follow_up_required : Bool) (notes : Option String) :
    DBState × Nat :=
  let iid := nextInterventionId st
  let row : InterventionRow :=
    { intervention_id := iid
      student_id := student_id
      advisor_id := advisor_id
      intervention_type_id := intervention_type_id
      title := title
      description := description
      priority := priority
      status := "Scheduled"
      scheduled_date := scheduled_date
      location := location
      method := method
      follow_up_required := follow_up_required
      follow_up_date := none
      notes := notes
      completed_date := none
      outcome_assessment := none
      success_rating := none
      student_response := none
      duration_minutes := none }
  let newNotifs : List NotificationRow :=
    match st.students.find? (fun s => decide (s.student_id = student_id)) with
    | some s =>
      match s.user_id with
      | some uid =>
        if uid ≠ 0 then
          [{ user_id := uid
             notification_type := "intervention_scheduled"
             title := "New Intervention Scheduled: " ++ title
             message := "An intervention has been scheduled with your advisor. Date: "
               ++ pyOr scheduled_date "TBD"
             priority := priority
             action_url := none
             action_label := none
             related_entity_type := some "interventions"
             related_entity_id := some iid }]
        else []
      | none => []
    | none => []
  let auditEntry : AuditRow :=
    { user_id := some advisor_id
      action := "INTERVENTION_CREATED"
      entity_type := some "interventions"
      entity_id := some iid
      old_values := none
      new_values := none }
  ({ st with
      interventions := st.interventions ++ [row]
      notifications := st.notifications ++ newNotifs
      audit_logs := st.audit_logs ++ [auditEntry] }, iid)

/-- `InterventionManager.update_status` (lines 123-157): builds the
`update_data` dict — always the new status, plus the appended note log
when a truthy `notes` argument was given and the intervention row was
found, plus `completed_date = now` when the new status is `Completed` —
applies it to every row with the given id, and appends one
`INTERVENTION_STATUS_UPDATED` audit entry that carries only the new
status.  No check of the current status is made.

`statusNotesField` is the `update_data['notes']` computation of
`update_status` (lines 137-146): `None` unless a truthy `notes` argument
was given and the row was found, in which case the new log is the old
`notes` column (SQL NULL printing as `None`) followed by the timestamped
status-change line and the new notes. -/
def statusNotesField (st : DBState) (now : String) (intervention_id : Nat)
    (new_status : String) (notes : Option String) : Option String :=
  match notes with
  | none => none
  | some n =>
    if n = "" then none
    else
      match st.interventions.find? (fun r => decide (r.intervention_id = intervention_id)) with
      | none => none
      | some row =>
        some (pyStrOfNotes row.notes ++ "\n\n[" ++ now ++ "] Status changed to "
          ++ new_status ++ "\n" ++ n)

/-- Applies the `update_data` dict of `update_status` to every row with
the given id and appends the one audit entry the method logs. -/
def update_status (st : DBState) (now : String) (intervention_id : Nat)
    (new_status : String) (notes : Option String) : DBState :=
  let notesField : Option String := statusNotesField st now intervention_id new_status notes
  let auditEntry : AuditRow :=
    { user_id := none
      action := "INTERVENTION_STATUS_UPDATED"
      entity_type := some "interventions"
      entity_id := some intervention_id
      old_values := none
      new_values := some [("status", new_status)] }
  { st with
    interventions := st.interventions.map (fun r =>
      if r.intervention_id = intervention_id then
        { r with
            status := new_status
            notes := (match notesField with | none => r.notes | some x => some x)
            completed_date := if new_status = "Completed" then some now else r.completed_date }
      else r)
    audit_logs := st.audit_logs ++ [auditEntry] }

/-- `InterventionManager.get_intervention_by_id` (lines 225-245): the
SELECT joins `students` and `advisors`, so a row is returned only when
both referenced rows exist; the LEFT JOIN on `intervention_types` never
filters. -/
def get_intervention_by_id (st : DBState) (intervention_id : Nat) :
    Option InterventionRow :=
  st.interventions.find? (fun r =>
    decide (r.intervention_id = intervention_id)
      && st.students.any (fun s => decide (s.student_id = r.student_id))
      && st.advisors.any (fun a => decide (a = r.advisor_id)))

/-- `InterventionManager.complete_intervention` (lines 159-201):
unconditionally sets status `Completed`, `completed_date = now` and the
given outcome fields on every row with the id, then notifies the student
of the (joined) intervention when possible.  No validation of
`outcome_assessment` or `success_rating` is made, and no audit entry is
appended. -/
def complete_intervention (st : DBState) (now : String) (intervention_id : Nat)
    (outcome_assessment : Option String) (success_rating : Option Int)
    (student_response : Option String) (duration_minutes : Option Int) : DBState :=
  let st1 : DBState :=
    { st with
      interventions := st.interventions.map (fun r =>
        if r.intervention_id = intervention_id then
          { r with
              status := "Completed"
              completed_date := some now
              outcome_assessment := outcome_assessment
              success_rating := success_rating
              student_response := student_response
              duration_minutes := duration_minutes }
        else r) }
  let newNotifs : List NotificationRow :=
    match get_intervention_by_id st1 intervention_id with
    | some ivn =>
      match st1.students.find? (fun s => decide (s.student_id = ivn.student_id)) with
      | some s =>
        match s.user_id with
        | some uid =>
          if uid ≠ 0 then
            [{ user_id := uid
               notification_type := "intervention_completed"
               title := "Intervention Completed"
               message := "Your intervention \"" ++ ivn.title
                 ++ "\" has been completed. Please check the outcome notes."
               priority := "Normal"
               action_url := none
               action_label := none
               related_entity_type := some "interventions"
               related_entity_id := some intervention_id }]
          else []
        | none => []
      | none => []
    | none => []
  { st1 with notifications := st1.notifications ++ newNotifs }

/-- `InterventionManager.schedule_follow_up` (lines 203-219): a plain
`update_intervention` that sets `follow_up_required = 1`, the given
`follow_up_date`, and the `notes` column to the `notes` argument (NULL
when absent) on every row with the id.  There is no status check, no
failure path, no notification and no audit entry. -/
def schedule_follow_up (st : DBState) (intervention_id : Nat)
    (follow_up_date : String) (notes : Option String) : DBState :=
  { st with
    interventions := st.interventions.map (fun r =>
      if r.intervention_id = intervention_id then
        { r with
            follow_up_required := true
            follow_up_date := some follow_up_date
            notes := notes }
      else r) }

/-- Python truthiness of a nullable integer filter argument. -/
def truthyNat (o : Option Nat) : Bool :=
  match o with
  | none => false
  | some n => decide (n ≠ 0)

/-- Python truthiness of a nullable string filter argument. -/
def truthyStr (o : Option String) : Bool :=
  match o with
  | none => false
  | some s => decide (s ≠ "")

/-- `DatabaseManager.get_interventions` (src/database/db_manager.py, lines
403-426): the JOIN keeps rows whose student exists, and each filter clause
is added only when the corresponding argument is truthy.  The SQL orders
by `scheduled_date DESC`; the claims below are about which rows are
returned, so the embedding returns them in table order. -/
def get_interventions (st : DBState) (student_id advisor_id : Option Nat)
    (status : Option String) : List InterventionRow :=
  st.interventions.filter (fun i =>
    st.students.any (fun s => decide (s.student_id = i.student_id))
      && (!truthyNat student_id || decide (i.student_id = student_id.getD 0))
      && (!truthyNat advisor_id || decide (i.advisor_id = advisor_id.getD 0))
      && (!truthyStr status || decide (i.status = status.getD "")))

/-- A student with a linked user account, for concrete test states. -/
def stuA : StudentRow := { student_id := 1, user_id := some 10 }

/-- A one-row `interventions` table entry with the given status and notes,
for concrete test states. -/
def ivnRow (status : String) (notes : Option String) : InterventionRow :=
  { intervention_id := 1
    student_id := 1
    advisor_id := 2
    intervention_type_id := none
    title := "Academic Check-In"
    description := none
    priority := "High"
    status := status
    scheduled_date := some "2025-01-01"
    location := none
    method := "In-person"
    follow_up_required := false
    follow_up_date := none
    notes := notes
    completed_date := none
    outcome_assessment := none
    success_rating := none
    student_response := none
    duration_minutes := none }

/-- A database holding one student, one advisor and one intervention in the
given status, for concrete test states. -/
def mkState (status : String) (notes : Option String) : DBState :=
  { students := [stuA]
    advisors := [2]
    interventions := [ivnRow status notes]
    notifications := []
    audit_logs := [] }

lemma isCurrentFor_flipFn_self (s t : Nat) (r : RiskRow) :
    isCurrentFor s t (flipFn s t r) = false := by
  unfold flipFn isCurrentFor
  by_cases h : r.student_id = s ∧ r.term_id = t
  · simp [h]
  · rw [if_neg h]
    simp only [decide_eq_false_iff_not]
    intro hc
    exact h ⟨hc.1, hc.2.1⟩

lemma isCurrentFor_flipFn_other (s t s' t' : Nat) (h : ¬(s' = s ∧ t' = t)) (r : RiskRow) :
    isCurrentFor s' t' (flipFn s t r) = isCurrentFor s' t' r := by
  unfold flipFn isCurrentFor
  by_cases hp : r.student_id = s ∧ r.term_id = t
  · rw [if_pos hp]
    by_cases h1 : r.student_id = s' ∧ r.term_id = t'
    · exfalso
      apply h
      exact ⟨h1.1.symm.trans hp.1, h1.2.symm.trans hp.2⟩
    · simp only [decide_eq_decide]
      constructor
      · rintro ⟨ha, hb, _⟩
        exact absurd ⟨ha, hb⟩ h1
      · rintro ⟨ha, hb, _⟩
        exact absurd ⟨ha, hb⟩ h1
  · rw [if_neg hp]

lemma filter_flip_self (s t : Nat) (tbl : List RiskRow) :
    (tbl.map (flipFn s t)).filter (isCurrentFor s t) = [] := by
  induction tbl with
  | nil => rfl
  | cons a l ih =>
    simp only [List.map_cons, List.filter_cons, isCurrentFor_flipFn_self]
    exact ih

lemma filter_flip_other (s t s' t' : Nat) (h : ¬(s' = s ∧ t' = t)) (tbl : List RiskRow) :
    ((tbl.map (flipFn s t)).filter (isCurrentFor s' t')).length
      = (tbl.filter (isCurrentFor s' t')).length := by
  induction tbl with
  | nil => rfl
  | cons a l ih =>
    simp only [List.map_cons, List.filter_cons, isCurrentFor_flipFn_other s t s' t' h]
    by_cases ha : isCurrentFor s' t' a = true
    · simp [ha, ih]
    · simp only [Bool.not_eq_true] at ha
      simp [ha, ih]

lemma isCurrentFor_newRiskRow_self (now : String) (s t : Nat) (ov : ℚ) (kw : RiskKwargs) :
    isCurrentFor s t (newRiskRow now s t ov kw) = true := by
  simp [isCurrentFor, newRiskRow]

lemma create_risk_score_filter_current (tbl : List RiskRow) (now : String) (s t : Nat)
    (ov : ℚ) (kw : RiskKwargs) :
    (create_risk_score tbl now s t ov kw).filter (isCurrentFor s t)
      = [newRiskRow now s t ov kw] := by
  unfold create_risk_score
  rw [List.filter_append, filter_flip_self]
  simp [isCurrentFor_newRiskRow_self]

lemma currentCount_create_self (tbl : List RiskRow) (now : String) (s t : Nat)
    (ov : ℚ) (kw : RiskKwargs) :
    currentCount (create_risk_score tbl now s t ov kw) s t = 1 := by
  unfold currentCount
  rw [create_risk_score_filter_current]
  rfl

lemma currentCount_create_other (tbl : List RiskRow) (now : String) (s t s' t' : Nat)
    (h : ¬(s' = s ∧ t' = t)) (ov : ℚ) (kw : RiskKwargs) :
    currentCount (create_risk_score tbl now s t ov kw) s' t' = currentCount tbl s' t' := by
  unfold currentCount create_risk_score
  rw [List.filter_append, List.length_append, filter_flip_other s t s' t' h]
  have hnew : isCurrentFor s' t' (newRiskRow now s t ov kw) = false := by
    unfold isCurrentFor newRiskRow
    simp only [decide_eq_false_iff_not]
    intro hc
    exact h ⟨hc.1.symm, hc.2.1.symm⟩
  simp [List.filter_cons, hnew]

lemma applyRiskCalls_currentCount (calls : List RiskCall) (tbl : List RiskRow) (s t : Nat) :
    currentCount (applyRiskCalls calls tbl) s t
      = if calls.any (fun c => decide (c.student_id = s ∧ c.term_id = t)) then 1
        else currentCount tbl s t := by
  induction calls generalizing tbl with
  | nil => simp [applyRiskCalls]
  | cons c cs ih =>
    have hstep : applyRiskCalls (c :: cs) tbl
        = applyRiskCalls cs (create_risk_score tbl c.now c.student_id c.term_id c.overall_risk_score c.kw) := rfl
    rw [hstep, ih]
    by_cases hcs : cs.any (fun c => decide (c.student_id = s ∧ c.term_id = t)) = true
    · rw [if_pos hcs, if_pos (show ((c :: cs).any fun c => decide (c.student_id = s ∧ c.term_id = t)) = true by
        rw [List.any_cons, hcs, Bool.or_true])]
    · rw [if_neg hcs]
      by_cases hc : c.student_id = s ∧ c.term_id = t
      · rw [if_pos (show ((c :: cs).any fun c => decide (c.student_id = s ∧ c.term_id = t)) = true by
          rw [List.any_cons, decide_eq_true hc, Bool.true_or])]
        rw [← hc.1, ← hc.2]
        exact currentCount_create_self _ _ _ _ _ _
      · have hcs' : (cs.any fun c => decide (c.student_id = s ∧ c.term_id = t)) = false := by
          exact Bool.not_eq_true _ ▸ eq_false_of_ne_true hcs
        have hany : ((c :: cs).any fun c => decide (c.student_id = s ∧ c.term_id = t)) = false := by
          simp only [List.any_cons, hcs', Bool.or_false, decide_eq_false_iff_not]
          exact hc
        rw [if_neg (by rw [hany]; exact Bool.false_ne_true)]
        exact currentCount_create_other _ _ _ _ s t
          (fun hp => hc ⟨hp.1.symm, hp.2.symm⟩) _ _

/-- C1: `create_risk_score` keeps exactly one current row per (student,
term) pair: a single call on any table leaves the new row as the only
current row for its pair (every previously-current row is flipped in the
same atomic step), and from an empty table any sequence of calls leaves
exactly one current row for a pair touched by some call and zero for every
other pair. -/
theorem create_risk_score_single_current :
    (∀ (tbl : List RiskRow) (now : String) (s t : Nat) (ov : ℚ) (kw : RiskKwargs),
        (create_risk_score tbl now s t ov kw).filter (isCurrentFor s t)
          = [newRiskRow now s t ov kw]) ∧
    (∀ (calls : List RiskCall) (s t : Nat),
        currentCount (applyRiskCalls calls []) s t
          = if calls.any (fun c => decide (c.student_id = s ∧ c.term_id = t)) then 1 else 0) := by
  refine ⟨create_risk_score_filter_current, ?_⟩
  intro calls s t
  rw [applyRiskCalls_currentCount]
  rfl

lemma create_risk_score_getLast (tbl : List RiskRow) (now : String) (s t : Nat)
    (ov : ℚ) (kw : RiskKwargs) :
    (create_risk_score tbl now s t ov kw).getLast? = some (newRiskRow now s t ov kw) := by
  unfold create_risk_score
  exact List.getLast?_concat _

/-- C4 (amended): `create_risk_score` performs no validation at all: for
any overall or sub-factor scores, in range or not, it always returns
normally, flipping the pair's previous rows and inserting exactly one new
row that stores the given values unchanged; no ValidationError exists. -/
theorem create_risk_score_no_validation :
    ∀ (tbl : List RiskRow) (now : String) (s t : Nat) (ov : ℚ) (kw : RiskKwargs),
      (create_risk_score tbl now s t ov kw).length = tbl.length + 1 ∧
      (create_risk_score tbl now s t ov kw).getLast? = some (newRiskRow now s t ov kw) ∧
      (newRiskRow now s t ov kw).overall_risk_score = ov := by
  intro tbl now s t ov kw
  refine ⟨?_, create_risk_score_getLast tbl now s t ov kw, rfl⟩
  unfold create_risk_score
  simp

/-- C4 counterexample: recording an overall score of 2 — far outside
[0,1] — does not fail: it inserts the row, current, with the out-of-range
score stored as given. -/
theorem create_risk_score_out_of_range_cex :
    (create_risk_score [] "2025-01-01" 1 1 2 {}).map
        (fun r => (r.overall_risk_score, r.is_current)) = [((2 : ℚ), true)]
    ∧ ¬ ((2 : ℚ) ≤ 1) := by
  constructor
  · rfl
  · norm_num

/-- C7 (amended): the category stored by `create_risk_score` is exactly the
caller-supplied `risk_category` kwarg (NULL when absent) — the function
derives nothing from the overall score.  Separately, the ML Predictions
page's categorization branch does bucket by the 0.70/0.50/0.30 thresholds,
and maps 0.82 to Critical, but that value is only displayed, never stored
by `create_risk_score`. -/
theorem risk_category_stored_vs_thresholds :
    (∀ (tbl : List RiskRow) (now : String) (s t : Nat) (ov : ℚ) (kw : RiskKwargs),
        (create_risk_score tbl now s t ov kw).getLast? = some (newRiskRow now s t ov kw) ∧
        (newRiskRow now s t ov kw).risk_category = kw.risk_category) ∧
    (∀ p : ℚ,
        (7/10 ≤ p → riskCategoryBranch p = "Critical") ∧
        (5/10 ≤ p → p < 7/10 → riskCategoryBranch p = "High") ∧
        (3/10 ≤ p → p < 5/10 → riskCategoryBranch p = "Medium") ∧
        (p < 3/10 → riskCategoryBranch p = "Low")) ∧
    riskCategoryBranch (82/100) = "Critical" := by
  refine ⟨fun tbl now s t ov kw => ⟨create_risk_score_getLast tbl now s t ov kw, rfl⟩, ?_, ?_⟩
  · intro p
    refine ⟨fun h1 => ?_, fun h1 h2 => ?_, fun h1 h2 => ?_, fun h1 => ?_⟩
    · unfold riskCategoryBranch
      rw [if_pos h1]
    · unfold riskCategoryBranch
      rw [if_neg (by exact fun hc => absurd hc (not_le.mpr h2)), if_pos h1]
    · unfold riskCategoryBranch
      rw [if_neg (fun hc => absurd (le_trans (by norm_num) hc) (not_le.mpr h2)),
        if_neg (fun hc => absurd hc (not_le.mpr h2)), if_pos h1]
    · unfold riskCategoryBranch
      rw [if_neg (fun hc => absurd (le_trans (by norm_num) hc) (not_le.mpr h1)),
        if_neg (fun hc => absurd (le_trans (by norm_num) hc) (not_le.mpr h1)),
        if_neg (fun hc => absurd hc (not_le.mpr h1))]
  · unfold riskCategoryBranch
    rw [if_pos (by norm_num)]

/-- Witness for C7: the threshold clauses applied at 0.82, 0.6, 0.4 and
0.1. -/
theorem risk_category_stored_vs_thresholds_wit :
    riskCategoryBranch (82/100) = "Critical" ∧ riskCategoryBranch (6/10) = "High" ∧
    riskCategoryBranch (4/10) = "Medium" ∧ riskCategoryBranch (1/10) = "Low" :=
  ⟨(risk_category_stored_vs_thresholds.2.1 (82/100)).1 (by norm_num),
   (risk_category_stored_vs_thresholds.2.1 (6/10)).2.1 (by norm_num) (by norm_num),
   (risk_category_stored_vs_thresholds.2.1 (4/10)).2.2.1 (by norm_num) (by norm_num),
   (risk_category_stored_vs_thresholds.2.1 (1/10)).2.2.2 (by norm_num)⟩

/-- C7 counterexample: recording an assessment with overall score 0.82 and
a caller-supplied category of Low stores Low, not the Critical that the
0.70 threshold would dictate — the stored category is not derived from the
score. -/
theorem risk_category_not_derived_cex :
    (create_risk_score [] "2025-01-01" 42 1 (82/100)
        { risk_category := some "Low" }).map (fun r => r.risk_category) = [some "Low"]
    ∧ riskCategoryBranch (82/100) = "Critical" := by
  constructor
  · rfl
  · unfold riskCategoryBranch
    rw [if_pos (by norm_num)]

/-- C2 (amended): `update_status` and `complete_intervention` perform no
transition-legality check: `update_status` sets the stored status to the
requested value whatever the current status (terminal states included),
`complete_intervention` unconditionally sets `Completed`, and no
`InvalidTransitionError` exists anywhere in the code. -/
theorem status_transition_unchecked :
    (∀ (st : DBState) (now : String) (iid : Nat) (ns : String) (notes : Option String)
        (r : InterventionRow),
        r ∈ (update_status st now iid ns notes).interventions →
        r.intervention_id = iid → r.status = ns) ∧
    (∀ (st : DBState) (now : String) (iid : Nat) (oa : Option String) (sr : Option Int)
        (sp : Option String) (dm : Option Int) (r : InterventionRow),
        r ∈ (complete_intervention st now iid oa sr sp dm).interventions →
        r.intervention_id = iid → r.status = "Completed") := by
  constructor
  · intro st now iid ns notes r hr hid
    simp only [update_status] at hr
    obtain ⟨a, _, rfl⟩ := List.mem_map.mp hr
    by_cases h : a.intervention_id = iid
    · rw [if_pos h]
    · rw [if_neg h] at hid
      exact absurd hid h
  · intro st now iid oa sr sp dm r hr hid
    simp only [complete_intervention] at hr
    obtain ⟨a, _, rfl⟩ := List.mem_map.mp hr
    by_cases h : a.intervention_id = iid
    · rw [if_pos h]
    · rw [if_neg h] at hid
      exact absurd hid h

/-- Witness for C2: a Completed intervention driven back to Scheduled, and
an In Progress intervention driven to Completed, by the two operations. -/
theorem status_transition_unchecked_wit :
    (ivnRow "Scheduled" none).status = "Scheduled" ∧
    ({ ivnRow "In Progress" none with
        status := "Completed"
        completed_date := some "2025-02-02"
        outcome_assessment := some "ok"
        success_rating := some 4 } : InterventionRow).status = "Completed" :=
  ⟨status_transition_unchecked.1 (mkState "Completed" none) "2025-02-02" 1 "Scheduled" none
      (ivnRow "Scheduled" none) (by decide) rfl,
   status_transition_unchecked.2 (mkState "In Progress" none) "2025-02-02" 1 (some "ok")
      (some 4) none none
      { ivnRow "In Progress" none with
          status := "Completed"
          completed_date := some "2025-02-02"
          outcome_assessment := some "ok"
          success_rating := some 4 } (by decide) rfl⟩

/-- C2 counterexample: an intervention already in the terminal status
Completed is moved back to Scheduled by `update_status` with no error and
no `InvalidTransitionError` — a transition out of a terminal state. -/
theorem update_status_terminal_cex :
    (mkState "Completed" none).interventions.map (fun r => r.status) = ["Completed"] ∧
    (update_status (mkState "Completed" none) "2025-02-02 10:00:00" 1 "Scheduled"
        none).interventions.map (fun r => r.status) = ["Scheduled"] :=
  ⟨rfl, rfl⟩

/-- C3 (amended): `complete_intervention` validates nothing: whatever the
`outcome_assessment` (even absent) and `success_rating` (even outside
1-5), it persists `status = Completed`, `completed_date = now` and the
given outcome fields unchanged; no `ValidationError` exists. -/
theorem complete_intervention_no_validation :
    ∀ (st : DBState) (now : String) (iid : Nat) (oa : Option String) (sr : Option Int)
      (sp : Option String) (dm : Option Int) (r : InterventionRow),
      r ∈ (complete_intervention st now iid oa sr sp dm).interventions →
      r.intervention_id = iid →
      r.status = "Completed" ∧ r.completed_date = some now ∧
        r.outcome_assessment = oa ∧ r.success_rating = sr := by
  intro st now iid oa sr sp dm r hr hid
  simp only [complete_intervention] at hr
  obtain ⟨a, _, rfl⟩ := List.mem_map.mp hr
  by_cases h : a.intervention_id = iid
  · rw [if_pos h]
    exact ⟨rfl, rfl, rfl, rfl⟩
  · rw [if_neg h] at hid
    exact absurd hid h

/-- Witness for C3: completion with no outcome assessment and a rating of
0 persists exactly those values. -/
theorem complete_intervention_no_validation_wit :
    ({ ivnRow "In Progress" none with
        status := "Completed"
        completed_date := some "2025-02-02"
        success_rating := some 0 } : InterventionRow).status = "Completed" ∧
    ({ ivnRow "In Progress" none with
        status := "Completed"
        completed_date := some "2025-02-02"
        success_rating := some 0 } : InterventionRow).completed_date = some "2025-02-02" ∧
    ({ ivnRow "In Progress" none with
        status := "Completed"
        completed_date := some "2025-02-02"
        success_rating := some 0 } : InterventionRow).outcome_assessment = none ∧
    ({ ivnRow "In Progress" none with
        status := "Completed"
        completed_date := some "2025-02-02"
        success_rating := some 0 } : InterventionRow).success_rating = some 0 :=
  complete_intervention_no_validation (mkState "In Progress" none) "2025-02-02" 1 none
    (some 0) none none
    { ivnRow "In Progress" none with
        status := "Completed"
        completed_date := some "2025-02-02"
        success_rating := some 0 } (by decide) rfl

/-- C3 counterexample: completing with no outcome assessment and a rating
of 0 (outside 1-5) raises nothing and persists the change. -/
theorem complete_intervention_invalid_cex :
    (complete_intervention (mkState "In Progress" none) "2025-02-02 10:00:00" 1 none
        (some 0) none none).interventions.map
        (fun r => (r.status, r.success_rating, r.outcome_assessment, r.completed_date))
      = [("Completed", some 0, none, some "2025-02-02 10:00:00")] ∧
    ¬ (1 ≤ (0 : Int) ∧ (0 : Int) ≤ 5) := by
  exact ⟨rfl, by decide⟩

/-- C5 (amended): `create_intervention` appends exactly one audit entry
(`INTERVENTION_CREATED`, entity id = the new intervention's id) and
`update_status` appends exactly one audit entry
(`INTERVENTION_STATUS_UPDATED`, entity id = the intervention's id) whose
values record only the new status — the before status is not recorded —
while `complete_intervention` appends no audit entry at all. -/
theorem audit_entries_per_operation :
    (∀ (st : DBState) (sid aid : Nat) (title : String) (desc : Option String)
        (tid : Option Nat) (pr : String) (sd loc : Option String) (m : String)
        (fu : Bool) (notes : Option String),
        (create_intervention st sid aid title desc tid pr sd loc m fu notes).1.audit_logs
          = st.audit_logs ++
            [{ user_id := some aid
               action := "INTERVENTION_CREATED"
               entity_type := some "interventions"
               entity_id := some (create_intervention st sid aid title desc tid pr sd loc m fu notes).2
               old_values := none
               new_values := none }]) ∧
    (∀ (st : DBState) (now : String) (iid : Nat) (ns : String) (notes : Option String),
        (update_status st now iid ns notes).audit_logs
          = st.audit_logs ++
            [{ user_id := none
               action := "INTERVENTION_STATUS_UPDATED"
               entity_type := some "interventions"
               entity_id := some iid
               old_values := none
               new_values := some [("status", ns)] }]) ∧
    (∀ (st : DBState) (now : String) (iid : Nat) (oa : Option String) (sr : Option Int)
        (sp : Option String) (dm : Option Int),
        (complete_intervention st now iid oa sr sp dm).audit_logs = st.audit_logs) := by
  refine ⟨?_, ?_, ?_⟩
  · intro st sid aid title desc tid pr sd loc m fu notes
    rfl
  · intro st now iid ns notes
    rfl
  · intro st now iid oa sr sp dm
    rfl

/-- C5 counterexample: `complete_intervention` is a status transition (it
sets the status to Completed) yet appends no audit entry: the audit log is
unchanged by the call. -/
theorem complete_intervention_no_audit_cex :
    (complete_intervention (mkState "In Progress" none) "2025-02-02 10:00:00" 1
        (some "Improved attendance") (some 4) none none).audit_logs = [] ∧
    (complete_intervention (mkState "In Progress" none) "2025-02-02 10:00:00" 1
        (some "Improved attendance") (some 4) none none).interventions.map
        (fun r => r.status) = ["Completed"] :=
  ⟨rfl, rfl⟩

/-- C6 (amended): `schedule_follow_up` performs no status check and has no
failure path: for an intervention in any status — Completed or not — it
sets `follow_up_required = true` and `follow_up_date` to the given date
(and overwrites the notes column with its notes argument). -/
theorem schedule_follow_up_any_status :
    ∀ (st : DBState) (iid : Nat) (d : String) (notes : Option String)
      (r : InterventionRow),
      r ∈ (schedule_follow_up st iid d notes).interventions →
      r.intervention_id = iid →
      r.follow_up_required = true ∧ r.follow_up_date = some d := by
  intro st iid d notes r hr hid
  simp only [schedule_follow_up] at hr
  obtain ⟨a, _, rfl⟩ := List.mem_map.mp hr
  by_cases h : a.intervention_id = iid
  · rw [if_pos h]
    exact ⟨rfl, rfl⟩
  · rw [if_neg h] at hid
    exact absurd hid h

/-- Witness for C6: follow-up scheduled on a merely Scheduled (not
Completed) intervention. -/
theorem schedule_follow_up_any_status_wit :
    ({ ivnRow "Scheduled" none with
        follow_up_required := true
        follow_up_date := some "2025-03-03" } : InterventionRow).follow_up_required = true ∧
    ({ ivnRow "Scheduled" none with
        follow_up_required := true
        follow_up_date := some "2025-03-03" } : InterventionRow).follow_up_date
      = some "2025-03-03" :=
  schedule_follow_up_any_status (mkState "Scheduled" none) 1 "2025-03-03" none
    { ivnRow "Scheduled" none with
        follow_up_required := true
        follow_up_date := some "2025-03-03" } (by decide) rfl

/-- C6 counterexample: `schedule_follow_up` on a Scheduled (non-Completed)
intervention raises no `InvalidTransitionError`: it simply sets the
follow-up flag and date. -/
theorem schedule_follow_up_non_completed_cex :
    (mkState "Scheduled" none).interventions.map (fun r => r.status) = ["Scheduled"] ∧
    (schedule_follow_up (mkState "Scheduled" none) 1 "2025-03-03" none).interventions.map
        (fun r => (r.status, r.follow_up_required, r.follow_up_date))
      = [("Scheduled", true, some "2025-03-03")] :=
  ⟨rfl, rfl⟩

lemma statusNotesField_found (st : DBState) (now : String) (iid : Nat)
    (ns n s : String) (r0 : InterventionRow)
    (hfind : st.interventions.find? (fun r => decide (r.intervention_id = iid)) = some r0)
    (hnotes : r0.notes = some s) (hne : n ≠ "") :
    statusNotesField st now iid ns (some n)
      = some (s ++ "\n\n[" ++ now ++ "] Status changed to " ++ ns ++ "\n" ++ n) := by
  simp only [statusNotesField]
  rw [if_neg hne, hfind]
  show some (pyStrOfNotes r0.notes ++ "\n\n[" ++ now ++ "] Status changed to " ++ ns ++ "\n" ++ n) = _
  rw [hnotes]
  rfl

/-- C8: when `update_status` is called with a nonempty notes argument on an
intervention whose notes column holds the log `s`, the stored notes become
`s` followed by a blank line, the bracketed timestamp, the status-change
line and the new notes — the prior log `s` is preserved as a prefix of the
new value, never overwritten. -/
theorem update_status_appends_notes :
    ∀ (st : DBState) (now : String) (iid : Nat) (ns n s : String) (r0 : InterventionRow),
      st.interventions.find? (fun r => decide (r.intervention_id = iid)) = some r0 →
      r0.notes = some s → n ≠ "" →
      ∀ r : InterventionRow,
        r ∈ (update_status st now iid ns (some n)).interventions →
        r.intervention_id = iid →
        r.notes = some (s ++ "\n\n[" ++ now ++ "] Status changed to " ++ ns ++ "\n" ++ n) := by
  intro st now iid ns n s r0 hfind hnotes hne r hr hid
  have hnf := statusNotesField_found st now iid ns n s r0 hfind hnotes hne
  simp only [update_status] at hr
  obtain ⟨a, _, rfl⟩ := List.mem_map.mp hr
  by_cases h : a.intervention_id = iid
  · rw [if_pos h]
    show (match statusNotesField st now iid ns (some n) with
          | none => a.notes
          | some x => some x) = _
    rw [hnf]
  · rw [if_neg h] at hid
    exact absurd hid h

/-- Witness for C8: a status change with notes appends to the existing
log `old note` rather than replacing it. -/
theorem update_status_appends_notes_wit :
    ({ ivnRow "In Progress" (some "old note") with
        status := "Completed"
        notes := some ("old note" ++ "\n\n[" ++ "2025-02-02 10:00:00"
          ++ "] Status changed to " ++ "Completed" ++ "\n" ++ "went well")
        completed_date := some "2025-02-02 10:00:00" } : InterventionRow).notes
      = some ("old note" ++ "\n\n[" ++ "2025-02-02 10:00:00"
          ++ "] Status changed to " ++ "Completed" ++ "\n" ++ "went well") :=
  update_status_appends_notes (mkState "In Progress" (some "old note"))
    "2025-02-02 10:00:00" 1 "Completed" "went well" "old note"
    (ivnRow "In Progress" (some "old note")) (by decide) rfl (by decide)
    { ivnRow "In Progress" (some "old note") with
        status := "Completed"
        notes := some ("old note" ++ "\n\n[" ++ "2025-02-02 10:00:00"
          ++ "] Status changed to " ++ "Completed" ++ "\n" ++ "went well")
        completed_date := some "2025-02-02 10:00:00" } (by decide) rfl

/-- C9: `schedule_follow_up` writes its `notes` argument straight into the
notes column of every row with the id — an unconditional overwrite — so a
call with no notes argument (Python default `None`) stores SQL NULL,
erasing whatever note log had accumulated. -/
theorem schedule_follow_up_overwrites_notes :
    ∀ (st : DBState) (iid : Nat) (d : String) (notes : Option String)
      (r : InterventionRow),
      r ∈ (schedule_follow_up st iid d notes).interventions →
      r.intervention_id = iid → r.notes = notes := by
  intro st iid d notes r hr hid
  simp only [schedule_follow_up] at hr
  obtain ⟨a, _, rfl⟩ := List.mem_map.mp hr
  by_cases h : a.intervention_id = iid
  · rw [if_pos h]
  · rw [if_neg h] at hid
    exact absurd hid h

/-- Witness for C9: a follow-up scheduled without notes on an intervention
whose log held `accumulated log` leaves the notes column NULL. -/
theorem schedule_follow_up_overwrites_notes_wit :
    ({ ivnRow "Completed" (some "accumulated log") with
        follow_up_required := true
        follow_up_date := some "2025-03-03"
        notes := none } : InterventionRow).notes = none :=
  schedule_follow_up_overwrites_notes (mkState "Completed" (some "accumulated log")) 1
    "2025-03-03" none
    { ivnRow "Completed" (some "accumulated log") with
        follow_up_required := true
        follow_up_date := some "2025-03-03"
        notes := none } (by decide) rfl

/-- C10: in `get_interventions` a `student_id` or `advisor_id` argument of
0 is falsy, so the corresponding filter clause is not added: the result is
the same as passing no filter at all, and it still contains every
intervention (of an existing student) rather than being empty. -/
theorem get_interventions_zero_id_unfiltered :
    (∀ st : DBState,
        get_interventions st (some 0) none none = get_interventions st none none none) ∧
    (∀ st : DBState,
        get_interventions st none (some 0) none = get_interventions st none none none) ∧
    (∀ (st : DBState) (r : InterventionRow), r ∈ st.interventions →
        st.students.any (fun s => decide (s.student_id = r.student_id)) = true →
        r ∈ get_interventions st (some 0) none none) := by
  refine ⟨fun st => rfl, fun st => rfl, ?_⟩
  intro st r hr hj
  refine List.mem_filter.mpr ⟨hr, ?_⟩
  show (st.students.any (fun s => decide (s.student_id = r.student_id))
      && (!truthyNat (some 0) || decide (r.student_id = (some 0 : Option Nat).getD 0))
      && (!truthyNat none || decide (r.advisor_id = (none : Option Nat).getD 0))
      && (!truthyStr none || decide (r.status = (none : Option String).getD ""))) = true
  rw [hj]
  rfl

/-- Witness for C10: with one intervention in the table, filtering by
student id 0 still returns it. -/
theorem get_interventions_zero_id_unfiltered_wit :
    ivnRow "Scheduled" none ∈ get_interventions (mkState "Scheduled" none) (some 0) none none :=
  get_interventions_zero_id_unfiltered.2.2 (mkState "Scheduled" none)
    (ivnRow "Scheduled" none) (by decide) (by decide)
